import Mathlib

/-!
Verification of the `saito::base` entity-registry framework (src/tpl_orm.hpp)
against its natural-language specification.

Shallow embedding notes:
* `std::shared_ptr<val_t>` (the registry's `val_pt`) is modelled as
  `Option α`: `none` is the null shared pointer, `some e` a pointer to
  entity `e`.
* `std::map<key_t, val_pt> m_data` is modelled extensionally as the
  lookup function `key_t -> Option val_pt` it denotes: `m_data k = none`
  means the key is absent, `m_data k = some v` means the map holds the
  handle `v` (itself possibly null) at `k`.
* The `_bai` hook interface (`add_index`, `db_insert`, ...) is modelled by
  the enumeration `Hook` of invocable hooks; operations additionally
  return the trace of hook invocations they perform, so that claims about
  which hooks fire are statable.  `_base_mgr::add` (lines 180-188) only
  does `m_data.find` and `m_data.insert`, so its trace is empty.
* The recursive mutex serializes `add`/`get`/`del` on one registry, so a
  set of concurrent calls is modelled as a sequential execution of those
  calls in an arbitrary order (any linearization).
-/

/-- The `_bai<val_t>` hook operations (src/tpl_orm.hpp lines 106-132):
index maintenance, database CRUD and cache CRUD. -/
inductive Hook : Type where
  | add_index : Hook
  | del_index : Hook
  | db_update : Hook
  | db_insert : Hook
  | db_delete : Hook
  | cache_update : Hook
  | cache_insert : Hook
  | cache_remove : Hook
deriving DecidableEq, Repr

/-- The state of one `_base_mgr<val_t>` object (src/tpl_orm.hpp lines
142-221): its `std::map<key_t, val_pt> m_data`, modelled as the lookup
function it denotes.  The handle type `val_pt = shared_ptr<val_t>` is
`Option α` (with `none` the null pointer). -/
structure base_mgr (κ α : Type) where
  m_data : κ → Option (Option α)

/-- A freshly constructed `_base_mgr` (`new _base_mgr<val_t>()`): the
member `m_data` is a default-constructed, hence empty, `std::map`. -/
def base_mgr.new (κ α : Type) : base_mgr κ α :=
  ⟨fun _ => none⟩

/-- Embeds `_base_mgr::add` (src/tpl_orm.hpp lines 180-188): under the lock,
`find` the key; if present return `false` without touching the map,
otherwise `insert` the pair and return `true`.  The third component is
the trace of `_bai` hook invocations performed by the call; the body
performs none. -/
def base_mgr.add {κ α : Type} [DecidableEq κ] (m : base_mgr κ α)
    (k : κ) (v : Option α) : Bool × base_mgr κ α × List Hook :=
  match m.m_data k with
  | some _ => (false, m, [])
  | none => (true, ⟨fun k2 => if k2 = k then some v else m.m_data k2⟩, [])

/-- Embeds `_base_mgr::get` (src/tpl_orm.hpp lines 189-196): under the lock,
`find` the key; if absent return `nullptr`, otherwise return the stored
handle `it->second`. -/
def base_mgr.get {κ α : Type} (m : base_mgr κ α) (k : κ) : Option α :=
  match m.m_data k with
  | none => none
  | some v => v

/-- Embeds `_base_mgr::del` (src/tpl_orm.hpp lines 197-201): under the lock,
`m_data.erase(k)` — removes the entry if present, no-op otherwise. -/
def base_mgr.del {κ α : Type} [DecidableEq κ] (m : base_mgr κ α)
    (k : κ) : base_mgr κ α :=
  ⟨fun k2 => if k2 = k then none else m.m_data k2⟩

/-- Sequential execution of a batch of `add` calls against one registry,
in the given order: since `add` holds the registry's recursive mutex for
its whole body, any set of concurrent `add` calls executes as such a
sequence (one per linearization order).  Returns the list of boolean
results and the final registry state. -/
def base_mgr.run_adds {κ α : Type} [DecidableEq κ] (m : base_mgr κ α) :
    List (κ × Option α) → List Bool × base_mgr κ α
  | [] => ([], m)
  | (k, v) :: rest =>
    let r := m.add k v
    let rr := r.2.1.run_adds rest
    (r.1 :: rr.1, rr.2)

/- Basic lemmas about the registry operations. -/

theorem base_mgr.eq_of_data {κ α : Type} (m1 m2 : base_mgr κ α)
    (h : m1.m_data = m2.m_data) : m1 = m2 := by
  cases m1; cases m2; cases h; rfl

theorem base_mgr.add_absent {κ α : Type} [DecidableEq κ]
    (m : base_mgr κ α) (k : κ) (v : Option α) (h : m.m_data k = none) :
    m.add k v =
      (true, ⟨fun k2 => if k2 = k then some v else m.m_data k2⟩, []) := by
  unfold base_mgr.add
  rw [h]

theorem base_mgr.add_present {κ α : Type} [DecidableEq κ]
    (m : base_mgr κ α) (k : κ) (v w : Option α)
    (h : m.m_data k = some w) : m.add k v = (false, m, []) := by
  unfold base_mgr.add
  rw [h]

theorem base_mgr.add_absent_data_self {κ α : Type} [DecidableEq κ]
    (m : base_mgr κ α) (k : κ) (v : Option α) (h : m.m_data k = none) :
    (m.add k v).2.1.m_data k = some v := by
  rw [base_mgr.add_absent m k v h]
  simp

theorem base_mgr.add_frame {κ α : Type} [DecidableEq κ]
    (m : base_mgr κ α) (k k2 : κ) (v : Option α) (h : k2 ≠ k) :
    (m.add k v).2.1.m_data k2 = m.m_data k2 := by
  unfold base_mgr.add
  cases hm : m.m_data k with
  | none => simp [h]
  | some w => rfl

theorem base_mgr.get_eq {κ α : Type} (m : base_mgr κ α) (k : κ)
    (v : Option α) (h : m.m_data k = some v) : m.get k = v := by
  unfold base_mgr.get
  rw [h]

theorem base_mgr.get_absent {κ α : Type} (m : base_mgr κ α) (k : κ)
    (h : m.m_data k = none) : m.get k = none := by
  unfold base_mgr.get
  rw [h]

theorem base_mgr.del_data_self {κ α : Type} [DecidableEq κ]
    (m : base_mgr κ α) (k : κ) : (m.del k).m_data k = none := by
  unfold base_mgr.del
  simp

theorem base_mgr.del_frame {κ α : Type} [DecidableEq κ]
    (m : base_mgr κ α) (k k2 : κ) (h : k2 ≠ k) :
    (m.del k).m_data k2 = m.m_data k2 := by
  unfold base_mgr.del
  simp [h]

theorem base_mgr.del_absent {κ α : Type} [DecidableEq κ]
    (m : base_mgr κ α) (k : κ) (h : m.m_data k = none) :
    m.del k = m := by
  apply base_mgr.eq_of_data
  funext k2
  by_cases hk : k2 = k
  · subst hk
    rw [base_mgr.del_data_self, h]
  · exact base_mgr.del_frame m k k2 hk

/-!
Process-level model of `_base_mgr<val_t>::instance()` (src/tpl_orm.hpp
lines 165-169).  The body is

    instance_t ret(new _base_mgr<val_t>());
    return ret;

it heap-allocates a fresh `_base_mgr` on every call (the declared static
member `m_instance`, lines 171-173, is never read or assigned).  The
process heap of `_base_mgr<val_t>` objects is modelled as a list; a
handle (an `instance_t = shared_ptr<_base_mgr<val_t>>`) is the index of
the object it points to, so two handles alias exactly when they are
equal as indices.
-/

/-- The live `_base_mgr<val_t>` objects of the process, for one entity
type `val_t`: index `i` in the list is object identity `i`. -/
structure mgr_heap (κ α : Type) where
  objects : List (base_mgr κ α)

/-- Embeds `_base_mgr::instance()` (src/tpl_orm.hpp lines 165-169): allocate a
fresh `_base_mgr` (empty map) and return a handle to it.  Returns the
handle (the new object's identity) and the grown heap. -/
def mgr_heap.call_instance {κ α : Type} (p : mgr_heap κ α) :
    Nat × mgr_heap κ α :=
  (p.objects.length, ⟨p.objects ++ [base_mgr.new κ α]⟩)

/-- Performs `add` through a handle: dereference the handle and run
`_base_mgr::add` on the object it points to, writing the mutated object
back at the same identity.  (A dangling handle cannot arise in the C++
code; the `none` branch is a no-op required by totality.) -/
def mgr_heap.add_via {κ α : Type} [DecidableEq κ] (p : mgr_heap κ α)
    (h : Nat) (k : κ) (v : Option α) : Bool × mgr_heap κ α :=
  match p.objects[h]? with
  | none => (false, p)
  | some m =>
    let r := m.add k v
    (r.1, ⟨p.objects.set h r.2.1⟩)

/-- Performs `get` through a handle: dereference the handle and run
`_base_mgr::get` on the object it points to. -/
def mgr_heap.get_via {κ α : Type} (p : mgr_heap κ α) (h : Nat)
    (k : κ) : Option α :=
  match p.objects[h]? with
  | none => none
  | some m => m.get k

/-!
Factory model.  `_base::new_instance` (src/tpl_orm.hpp lines 42-51) and
`_base_assigned::new_instance` (lines 53-64) both execute

    std::shared_ptr<val_t> ret(new val_t);
    return ret;

The heap allocation is modelled by a counter of allocation identities:
each call returns a handle carrying a fresh identity and the
default-constructed entity value.  The concrete entity type is
`base_test` (src/tpl_orm.hpp lines 228-241), whose only member is
`int m_val {0}`, so its default-constructed value is `m_val = 0`.
-/

/-- The test entity `base_test` (src/tpl_orm.hpp lines 228-241): one
member `int m_val {0}`. -/
structure base_test where
  m_val : Int
deriving DecidableEq, Repr

/-- The default-constructed `base_test`: the member initializer
`m_val {0}` zero-initializes `m_val`. -/
def base_test.default : base_test := ⟨0⟩

/-- Allocation state of the process heap for entity objects: the next
unused allocation identity.  Identities of live objects returned so far
are all smaller. -/
structure alloc_state where
  next_id : Nat
deriving DecidableEq, Repr

/-- A `shared_ptr<val_t>` returned by the factory: the allocation
identity of the pointed-to object and the object's value. -/
structure ent_handle (α : Type) where
  id : Nat
  val : α
deriving DecidableEq, Repr

/-- Embeds `_base::new_instance` and `_base_assigned::new_instance`
(src/tpl_orm.hpp lines 46-50 and 57-61): allocate a fresh,
default-constructed `base_test` and return a shared-ownership handle to
it.  Total (never fails): the source assumes allocation and default
construction are infallible (`noexcept`). -/
def new_instance (st : alloc_state) : ent_handle base_test × alloc_state :=
  (⟨st.next_id, base_test.default⟩, ⟨st.next_id + 1⟩)

/-- Modelled from the spec: the create pathway is not implemented in
src/ — the `_bai` persistence hooks (src/tpl_orm.hpp lines 106-132) are
pure-virtual declarations with no caller in the repository, and spec
§4.3 makes the ordering caller-enforced.  Per §4.3, on create
`db_insert` must succeed before `cache_insert` is attempted; per §8, if
`db_insert` fails the pathway reports failure and calls neither
`cache_insert` nor `add_index`.  An entity's hook outcomes are the
booleans its `db_insert` / `cache_insert` implementations return. -/
structure ent_hooks where
  db_insert_ok : Bool
  cache_insert_ok : Bool
deriving DecidableEq, Repr

/-- Modelled from the spec: the create pathway for one entity — attempt
`db_insert`; only if it succeeds attempt `cache_insert`; only if both
succeed run `add_index` and report success.  Returns the success flag
and the trace of hooks attempted, in order. -/
def create_pathway (e : ent_hooks) : Bool × List Hook :=
  if e.db_insert_ok then
    if e.cache_insert_ok then
      (true, [Hook.db_insert, Hook.cache_insert, Hook.add_index])
    else (false, [Hook.db_insert, Hook.cache_insert])
  else (false, [Hook.db_insert])

/- Lemmas about sequential batches of `add` calls. -/

theorem base_mgr.run_adds_nil {κ α : Type} [DecidableEq κ]
    (m : base_mgr κ α) : m.run_adds [] = ([], m) := rfl

theorem base_mgr.run_adds_cons {κ α : Type} [DecidableEq κ]
    (m : base_mgr κ α) (k : κ) (v : Option α)
    (rest : List (κ × Option α)) :
    m.run_adds ((k, v) :: rest) =
      ((m.add k v).1 :: ((m.add k v).2.1.run_adds rest).1,
       ((m.add k v).2.1.run_adds rest).2) := rfl

theorem base_mgr.run_adds_length {κ α : Type} [DecidableEq κ]
    (ops : List (κ × Option α)) :
    ∀ m : base_mgr κ α, (m.run_adds ops).1.length = ops.length := by
  induction ops with
  | nil => intro m; rfl
  | cons p rest ih =>
    intro m
    obtain ⟨k, v⟩ := p
    rw [base_mgr.run_adds_cons]
    simp only [List.length_cons]
    rw [ih]

theorem base_mgr.run_adds_present_all_false {κ α : Type} [DecidableEq κ]
    (es : List (Option α)) :
    ∀ (m : base_mgr κ α) (k : κ) (w : Option α), m.m_data k = some w →
      (m.run_adds (es.map fun e => (k, e))).1 = es.map fun _ => false := by
  induction es with
  | nil => intro m k w _; rfl
  | cons e rest ih =>
    intro m k w h
    have he : m.add k e = (false, m, []) := base_mgr.add_present m k e w h
    have hf : (m.add k e).1 = false := by rw [he]
    have hs : (m.add k e).2.1 = m := by rw [he]
    simp only [List.map_cons]
    rw [base_mgr.run_adds_cons, hf, hs, ih m k w h]

theorem count_true_replicate (n : Nat) :
    ((List.replicate n false).count true) = 0 := by
  induction n with
  | zero => rfl
  | succ n ih =>
    rw [List.replicate_succ, List.count_cons]
    simp [ih]

theorem count_true_map_false {β : Type} (l : List β) :
    ((l.map fun _ => false).count true) = 0 := by
  simp [count_true_replicate]

theorem base_mgr.run_adds_same_key_count {κ α : Type} [DecidableEq κ]
    (m : base_mgr κ α) (k : κ) (es : List (Option α))
    (h : m.m_data k = none) (hne : es ≠ []) :
    ((m.run_adds (es.map fun e => (k, e))).1.count true) = 1 := by
  cases es with
  | nil => exact absurd rfl hne
  | cons e rest =>
    have hf : (m.add k e).1 = true := by rw [base_mgr.add_absent m k e h]
    have hrest : ((m.add k e).2.1.run_adds
        (rest.map fun e2 => (k, e2))).1 = rest.map fun _ => false :=
      base_mgr.run_adds_present_all_false rest (m.add k e).2.1 k e
        (base_mgr.add_absent_data_self m k e h)
    simp only [List.map_cons]
    rw [base_mgr.run_adds_cons, hf, hrest]
    simp [List.count_cons, count_true_replicate]

theorem base_mgr.run_adds_distinct_all_true {κ α : Type} [DecidableEq κ]
    (ops : List (κ × Option α)) :
    ∀ m : base_mgr κ α, (ops.map Prod.fst).Nodup →
      (∀ k0 ∈ ops.map Prod.fst, m.m_data k0 = none) →
      (m.run_adds ops).1 = ops.map fun _ => true := by
  induction ops with
  | nil => intro m _ _; rfl
  | cons p rest ih =>
    obtain ⟨k, v⟩ := p
    intro m hnd habs
    have hk : m.m_data k = none := habs k (by simp)
    have hkni : k ∉ rest.map Prod.fst := by
      simp only [List.map_cons, List.nodup_cons] at hnd
      exact hnd.1
    have hnd' : (rest.map Prod.fst).Nodup := by
      simp only [List.map_cons, List.nodup_cons] at hnd
      exact hnd.2
    have habs' : ∀ k0 ∈ rest.map Prod.fst,
        (m.add k v).2.1.m_data k0 = none := by
      intro k0 hk0
      have hne : k0 ≠ k := fun he => hkni (he ▸ hk0)
      rw [base_mgr.add_frame m k k0 v hne]
      exact habs k0 (by simp [hk0])
    have hf : (m.add k v).1 = true := by rw [base_mgr.add_absent m k v hk]
    simp only [List.map_cons]
    rw [base_mgr.run_adds_cons, hf, ih (m.add k v).2.1 hnd' habs']

/-- Claim C2: for every registry state, key `k` already present, and
entity `e2`, `add(k, e2)` returns `false` and leaves the registry state
entirely unchanged; a subsequent `get(k)` still returns the entity that
was mapped to `k` before the failed `add` (no overwrite-on-add). -/
theorem C2_add_existing_key_no_overwrite {κ α : Type} [DecidableEq κ]
    (m : base_mgr κ α) (k : κ) (v0 e2 : Option α)
    (h : m.m_data k = some v0) :
    (m.add k e2).1 = false ∧ (m.add k e2).2.1 = m ∧
      (m.add k e2).2.1.get k = v0 := by
  have he : m.add k e2 = (false, m, []) := base_mgr.add_present m k e2 v0 h
  refine ⟨by rw [he], by rw [he], ?_⟩
  rw [he]
  exact base_mgr.get_eq m k v0 h

/-- Witness for C2: concrete registry over `Nat` keys holding handle
`some ⟨100⟩` at key 0; a second `add` at key 0 fails and overwrites
nothing. -/
theorem C2_witness :
    ((((base_mgr.new Nat base_test).add 0 (some ⟨100⟩)).2.1.add 0
        (some ⟨200⟩)).1 = false ∧
      (((base_mgr.new Nat base_test).add 0 (some ⟨100⟩)).2.1.add 0
        (some ⟨200⟩)).2.1 =
        ((base_mgr.new Nat base_test).add 0 (some ⟨100⟩)).2.1 ∧
      (((base_mgr.new Nat base_test).add 0 (some ⟨100⟩)).2.1.add 0
        (some ⟨200⟩)).2.1.get 0 = some ⟨100⟩) :=
  C2_add_existing_key_no_overwrite
    ((base_mgr.new Nat base_test).add 0 (some ⟨100⟩)).2.1 0
    (some ⟨100⟩) (some ⟨200⟩) (by decide)

/-- Claim C3: for keys `k1 ≠ k2` and entities `e1`, `e2`, with neither
key present: both `add` calls return `true`, then `get k1 = e1` and
`get k2 = e2`. -/
theorem C3_add_two_distinct_keys {κ α : Type} [DecidableEq κ]
    (m : base_mgr κ α) (k1 k2 : κ) (e1 e2 : Option α) (hne : k1 ≠ k2)
    (h1 : m.m_data k1 = none) (h2 : m.m_data k2 = none) :
    (m.add k1 e1).1 = true ∧
      ((m.add k1 e1).2.1.add k2 e2).1 = true ∧
      ((m.add k1 e1).2.1.add k2 e2).2.1.get k1 = e1 ∧
      ((m.add k1 e1).2.1.add k2 e2).2.1.get k2 = e2 := by
  have hm1k2 : (m.add k1 e1).2.1.m_data k2 = none := by
    rw [base_mgr.add_frame m k1 k2 e1 (Ne.symm hne)]
    exact h2
  have hm1k1 : (m.add k1 e1).2.1.m_data k1 = some e1 :=
    base_mgr.add_absent_data_self m k1 e1 h1
  have hm2k1 : ((m.add k1 e1).2.1.add k2 e2).2.1.m_data k1 = some e1 := by
    rw [base_mgr.add_frame (m.add k1 e1).2.1 k2 k1 e2 hne]
    exact hm1k1
  have hm2k2 : ((m.add k1 e1).2.1.add k2 e2).2.1.m_data k2 = some e2 :=
    base_mgr.add_absent_data_self (m.add k1 e1).2.1 k2 e2 hm1k2
  refine ⟨by rw [base_mgr.add_absent m k1 e1 h1],
    by rw [base_mgr.add_absent (m.add k1 e1).2.1 k2 e2 hm1k2],
    base_mgr.get_eq _ k1 e1 hm2k1, base_mgr.get_eq _ k2 e2 hm2k2⟩

/-- Witness for C3: keys 0 and 1 on the empty registry. -/
theorem C3_witness :
    (((base_mgr.new Nat base_test).add 0 (some ⟨10⟩)).1 = true ∧
      (((base_mgr.new Nat base_test).add 0 (some ⟨10⟩)).2.1.add 1
        (some ⟨20⟩)).1 = true ∧
      (((base_mgr.new Nat base_test).add 0 (some ⟨10⟩)).2.1.add 1
        (some ⟨20⟩)).2.1.get 0 = some ⟨10⟩ ∧
      (((base_mgr.new Nat base_test).add 0 (some ⟨10⟩)).2.1.add 1
        (some ⟨20⟩)).2.1.get 1 = some ⟨20⟩) :=
  C3_add_two_distinct_keys (base_mgr.new Nat base_test) 0 1
    (some ⟨10⟩) (some ⟨20⟩) (by decide) (by decide) (by decide)

/-- Claim C4: for every registry state, key and entity, `add(k, e)` then
`del(k)` then `get(k)` yields an empty result. -/
theorem C4_add_del_get_empty {κ α : Type} [DecidableEq κ]
    (m : base_mgr κ α) (k : κ) (e : Option α) :
    ((m.add k e).2.1.del k).get k = none :=
  base_mgr.get_absent _ k (base_mgr.del_data_self (m.add k e).2.1 k)

/-- Claim C5: `del(k)` on an absent key is a silent no-op (the state is
unchanged, no error is signalled — `del` is a total function into
registry states); when `k` is present, `del(k)` removes exactly `k`'s
entry and every other key's mapping is unchanged. -/
theorem C5_del_noop_and_frame {κ α : Type} [DecidableEq κ]
    (m : base_mgr κ α) (k : κ) :
    (m.m_data k = none → m.del k = m) ∧
      (m.del k).m_data k = none ∧
      ∀ k2, k2 ≠ k → (m.del k).m_data k2 = m.m_data k2 :=
  ⟨fun h => base_mgr.del_absent m k h, base_mgr.del_data_self m k,
    fun k2 h => base_mgr.del_frame m k k2 h⟩

/-- Witness for C5: deleting the absent key 5 from a registry holding
key 0 is a no-op; the mapping at keys 0 and 3 is untouched. -/
theorem C5_witness :
    (((base_mgr.new Nat base_test).add 0 (some ⟨7⟩)).2.1.del 5 =
        ((base_mgr.new Nat base_test).add 0 (some ⟨7⟩)).2.1 ∧
      ((((base_mgr.new Nat base_test).add 0 (some ⟨7⟩)).2.1.del 5).m_data 5 =
        none) ∧
      ((((base_mgr.new Nat base_test).add 0 (some ⟨7⟩)).2.1.del 5).m_data 0 =
        (((base_mgr.new Nat base_test).add 0 (some ⟨7⟩)).2.1.m_data 0))) := by
  have h := C5_del_noop_and_frame
    ((base_mgr.new Nat base_test).add 0 (some ⟨7⟩)).2.1 5
  exact ⟨h.1 (by decide), h.2.1, h.2.2 0 (by decide)⟩

/-- Claim C10: the registry accepts a null entity handle: for an absent
key, `add(k, nullptr)` returns `true`, and the subsequent `get(k)`
returns the null handle — the same result `get` gives for an absent
key. -/
theorem C10_add_null_handle {κ α : Type} [DecidableEq κ]
    (m : base_mgr κ α) (k : κ) (h : m.m_data k = none) :
    (m.add k none).1 = true ∧ (m.add k none).2.1.get k = none ∧
      m.get k = none := by
  refine ⟨by rw [base_mgr.add_absent m k none h], ?_,
    base_mgr.get_absent m k h⟩
  exact base_mgr.get_eq _ k none (base_mgr.add_absent_data_self m k none h)

/-- Witness for C10: adding the null handle at key 0 to the empty
registry. -/
theorem C10_witness :
    (((base_mgr.new Nat base_test).add 0 none).1 = true ∧
      ((base_mgr.new Nat base_test).add 0 none).2.1.get 0 = none ∧
      (base_mgr.new Nat base_test).get 0 = none) :=
  C10_add_null_handle (base_mgr.new Nat base_test) 0 (by decide)

/-- Concrete process scenario for claim C1: the empty process heap of
`_base_mgr<base_test>` objects. -/
def proc0 : mgr_heap Nat base_test := ⟨[]⟩

/-- Process heap after the first `instance()` call. -/
def proc1 : mgr_heap Nat base_test := proc0.call_instance.2

/-- Process heap after the second `instance()` call. -/
def proc2 : mgr_heap Nat base_test := proc1.call_instance.2

/-- Process heap after `add(7, some ⟨100⟩)` performed through the handle
returned by the first `instance()` call. -/
def proc3 : mgr_heap Nat base_test :=
  (proc2.add_via proc0.call_instance.1 7 (some ⟨100⟩)).2

/-- Claim C1 is refuted by the code: `instance()` allocates a fresh
`_base_mgr` on every call (the static `m_instance` member is never
used), so the two calls return handles to distinct objects, and an `add`
performed through the first handle is invisible to a `get` through the
second handle. -/
theorem C1_instance_not_singleton_eval :
    proc0.call_instance.1 ≠ proc1.call_instance.1 ∧
      (proc2.add_via proc0.call_instance.1 7 (some ⟨100⟩)).1 = true ∧
      proc3.get_via proc0.call_instance.1 7 = some ⟨100⟩ ∧
      proc3.get_via proc1.call_instance.1 7 = none := by
  refine ⟨by decide, ?_, ?_, ?_⟩ <;> rfl

/-- Claim C6 as stated is false: a successful `_base_mgr::add` performs
no `_bai` hook invocation at all — at the concrete input below the call
succeeds yet neither `add_index` nor the persistence inserts appear in
its invocation trace. -/
theorem C6_counterexample :
    ((base_mgr.new Nat base_test).add 0 (some ⟨100⟩)).1 = true ∧
      Hook.add_index ∉
        ((base_mgr.new Nat base_test).add 0 (some ⟨100⟩)).2.2 ∧
      Hook.db_insert ∉
        ((base_mgr.new Nat base_test).add 0 (some ⟨100⟩)).2.2 ∧
      Hook.cache_insert ∉
        ((base_mgr.new Nat base_test).add 0 (some ⟨100⟩)).2.2 := by
  decide

/-- Claim C6 amended: a successful `Registry.add(key, entity)` only
inserts the entity into the registry map and returns `true`; it invokes
no `_bai` hooks (its hook-invocation trace is empty) — firing
`add_index` and the persistence inserts is left to calling code. -/
theorem C6_add_fires_no_hooks {κ α : Type} [DecidableEq κ]
    (m : base_mgr κ α) (k : κ) (v : Option α) (h : m.m_data k = none) :
    (m.add k v).1 = true ∧ (m.add k v).2.2 = [] ∧
      (m.add k v).2.1.m_data k = some v := by
  refine ⟨by rw [base_mgr.add_absent m k v h],
    by rw [base_mgr.add_absent m k v h],
    base_mgr.add_absent_data_self m k v h⟩

/-- Witness for the amended C6: adding at key 0 on the empty registry. -/
theorem C6_witness :
    (((base_mgr.new Nat base_test).add 0 (some ⟨100⟩)).1 = true ∧
      ((base_mgr.new Nat base_test).add 0 (some ⟨100⟩)).2.2 = [] ∧
      ((base_mgr.new Nat base_test).add 0 (some ⟨100⟩)).2.1.m_data 0 =
        some (some ⟨100⟩)) :=
  C6_add_fires_no_hooks (base_mgr.new Nat base_test) 0 (some ⟨100⟩)
    (by decide)

/-- Claim C7: on the create pathway, `cache_insert` is only ever
attempted after `db_insert` has succeeded; if an entity's `db_insert`
returns `false`, the pathway reports failure and attempts neither
`cache_insert` nor `add_index`. -/
theorem C7_create_requires_db_insert (e : ent_hooks) :
    (Hook.cache_insert ∈ (create_pathway e).2 → e.db_insert_ok = true) ∧
      (e.db_insert_ok = false →
        (create_pathway e).1 = false ∧
        Hook.cache_insert ∉ (create_pathway e).2 ∧
        Hook.add_index ∉ (create_pathway e).2) := by
  obtain ⟨db, ca⟩ := e
  cases db <;> cases ca <;> refine ⟨?_, ?_⟩ <;> intro h <;>
    simp_all [create_pathway]

/-- Witness for C7: an entity whose `db_insert` always fails. -/
theorem C7_witness :
    ((Hook.cache_insert ∈ (create_pathway ⟨false, true⟩).2 →
        ent_hooks.db_insert_ok ⟨false, true⟩ = true) ∧
      ((create_pathway ⟨false, true⟩).1 = false ∧
        Hook.cache_insert ∉ (create_pathway ⟨false, true⟩).2 ∧
        Hook.add_index ∉ (create_pathway ⟨false, true⟩).2)) :=
  ⟨(C7_create_requires_db_insert ⟨false, true⟩).1,
    (C7_create_requires_db_insert ⟨false, true⟩).2 rfl⟩

/-- Claim C8: the factory never fails — `new_instance` is a total
function that returns a handle to a newly constructed, zero-initialized
entity (`m_val = 0`, the default-constructed `base_test`), whose
allocation identity differs from every previously returned one, and the
allocator invariant is preserved, so freshness propagates across
calls. -/
theorem C8_new_instance_total_fresh_zero (st : alloc_state)
    (prev : List Nat) (hprev : ∀ i ∈ prev, i < st.next_id) :
    (new_instance st).1.val = base_test.default ∧
      (new_instance st).1.val.m_val = 0 ∧
      (new_instance st).1.id ∉ prev ∧
      (new_instance st).2.next_id = st.next_id + 1 ∧
      ∀ i, (i = (new_instance st).1.id ∨ i ∈ prev) →
        i < (new_instance st).2.next_id := by
  refine ⟨rfl, rfl, ?_, rfl, ?_⟩
  · intro hmem
    exact absurd (hprev _ hmem) (lt_irrefl st.next_id)
  · intro i hi
    cases hi with
    | inl h =>
      subst h
      exact Nat.lt_succ_self st.next_id
    | inr h => exact Nat.lt_succ_of_lt (hprev i h)

/-- Witness for C8: the third allocation, after identities 0 and 1 were
handed out. -/
theorem C8_witness :
    ((new_instance ⟨2⟩).1.val = base_test.default ∧
      (new_instance ⟨2⟩).1.val.m_val = 0 ∧
      (new_instance ⟨2⟩).1.id ∉ [0, 1] ∧
      (new_instance ⟨2⟩).2.next_id = 2 + 1 ∧
      ∀ i, (i = (new_instance ⟨2⟩).1.id ∨ i ∈ [0, 1]) →
        i < (new_instance ⟨2⟩).2.next_id) :=
  C8_new_instance_total_fresh_zero ⟨2⟩ [0, 1] (by decide)

/-- Claim C9: the registry lock serializes `add` calls, so N concurrent
`add` calls with the same (initially absent) key execute as that batch
in some order, and in every order exactly one of the N boolean results
is `true` (the result list has length N and `true`-count 1); concurrent
`add` calls with pairwise distinct absent keys all return `true`. -/
theorem C9_serialized_adds (κ α : Type) [DecidableEq κ] :
    (∀ (m : base_mgr κ α) (k : κ) (es : List (Option α)),
        m.m_data k = none → es ≠ [] →
        ((m.run_adds (es.map fun e => (k, e))).1.count true) = 1 ∧
          (m.run_adds (es.map fun e => (k, e))).1.length = es.length) ∧
      (∀ (m : base_mgr κ α) (ops : List (κ × Option α)),
        (ops.map Prod.fst).Nodup →
        (∀ k0 ∈ ops.map Prod.fst, m.m_data k0 = none) →
        (m.run_adds ops).1 = ops.map fun _ => true) := by
  refine ⟨fun m k es h hne => ⟨base_mgr.run_adds_same_key_count m k es h hne, ?_⟩,
    fun m ops hnd habs =>
      base_mgr.run_adds_distinct_all_true ops m hnd habs⟩
  rw [base_mgr.run_adds_length]
  simp

/-- Witness for C9: three same-key adds on the empty registry (one
success), and two distinct-key adds (both succeed). -/
theorem C9_witness :
    ((((base_mgr.new Nat base_test).run_adds
          ([some ⟨1⟩, some ⟨2⟩, some ⟨3⟩].map fun e =>
            ((0 : Nat), e))).1.count true) = 1 ∧
      ((base_mgr.new Nat base_test).run_adds
          ([some ⟨1⟩, some ⟨2⟩, some ⟨3⟩].map fun e =>
            ((0 : Nat), e))).1.length = 3 ∧
      ((base_mgr.new Nat base_test).run_adds
          [((0 : Nat), some ⟨1⟩), (1, some ⟨2⟩)]).1 =
        [((0 : Nat), some (⟨1⟩ : base_test)), (1, some ⟨2⟩)].map
          fun _ => true) := by
  have h1 := (C9_serialized_adds Nat base_test).1
    (base_mgr.new Nat base_test) 0 [some ⟨1⟩, some ⟨2⟩, some ⟨3⟩]
    (by decide) (by decide)
  have h2 := (C9_serialized_adds Nat base_test).2
    (base_mgr.new Nat base_test) [((0 : Nat), some ⟨1⟩), (1, some ⟨2⟩)]
    (by decide) (by decide)
  exact ⟨h1.1, h1.2, h2⟩

/-- Witness for C4: add at key 0, delete key 0, get key 0 on the empty
registry. -/
theorem C4_witness :
    (((base_mgr.new Nat base_test).add 0 (some ⟨5⟩)).2.1.del 0).get 0 =
      none :=
  C4_add_del_get_empty (base_mgr.new Nat base_test) 0 (some ⟨5⟩)
